import Mathlib

/-!
Shallow embedding of the SWIM membership core of ringpop-go
(`swim/member.go`, both revisions present in the repository, plus the
label checksum machinery).  Go `string` becomes `String`, Go `int64`
becomes `Int` (the code only compares incarnation numbers, it never does
arithmetic on them, so no wrap-around modelling is needed), Go `uint32`
arithmetic in the label checksum is `Nat` arithmetic reduced `% 2^32`,
and the Go map used for labels becomes an association list whose order
stands for the (unspecified) map iteration order.
-/

namespace Swim

/-- `Alive` is the member "alive" state (from `member.go`). -/
def Alive : String := "alive"

/-- `Suspect` is the member "suspect" state (from `member.go`). -/
def Suspect : String := "suspect"

/-- `Faulty` is the member "faulty" state (from `member.go`). -/
def Faulty : String := "faulty"

/-- `Leave` is the member "leave" state (from `member.go`). -/
def Leave : String := "leave"

/-- `Tombstone` is the member "tombstone" state (from `member.go`). -/
def Tombstone : String := "tombstone"

/-- `statePrecedence` from `member.go`: the `switch` on the status string,
with the `default` branch returning `-1`. -/
def statePrecedence (s : String) : Int :=
  if s = Alive then 0
  else if s = Suspect then 1
  else if s = Faulty then 2
  else if s = Leave then 3
  else if s = Tombstone then 4
  else -1

/-- `LabelMap` from `member.go`: a `map[string]string`, embedded as an
association list; the list order models the Go map iteration order. -/
abbrev LabelMap := List (String × String)

/-- `Member` from `member.go`: address, status, incarnation and labels.
The embedded mutex of the older revision carries no data and is dropped. -/
structure Member where
  Address : String
  Status : String
  Incarnation : Int
  Labels : LabelMap
deriving DecidableEq, Repr

/-- `Change` from `member.go`: the gossip wire unit.  `util.Timestamp` is
an integer Unix timestamp, embedded as `Int`. -/
structure Change where
  Source : String
  SourceIncarnation : Int
  Address : String
  Incarnation : Int
  Status : String
  Tombstone : Bool
  Labels : LabelMap
  Timestamp : Int
deriving DecidableEq, Repr

/-- `Member.nonLocalOverride` from `member.go`: address gate, then
incarnation comparison, then state precedence on a tie. -/
def Member.nonLocalOverride (m : Member) (change : Change) : Bool :=
  if change.Address ≠ m.Address then false
  else if change.Incarnation > m.Incarnation then true
  else if change.Incarnation < m.Incarnation then false
  else decide (statePrecedence change.Status > statePrecedence m.Status)

/-- `Member.localOverride` from `member.go`: returns whether the change
would override the state of the local member (the trigger for
reincarnation).  Note the code compares `m.Address` with `local`, and
never looks at `change.Address`. -/
def Member.localOverride (m : Member) (localAddr : String) (change : Change) : Bool :=
  if m.Address ≠ localAddr then false
  else if change.Incarnation < m.Incarnation then false
  else change.Status == Faulty || change.Status == Suspect || change.Status == Tombstone

/-- `acceptGossip` from `member.go` (second revision): `old` is the
stored view (`nil` pointer becomes `none`), `gossip` the incoming view. -/
def acceptGossip (old : Option Member) (gossip : Member) : Bool :=
  match old with
  | none =>
    -- tombstones will not be accepted if we have no knowledge about the
    -- member; otherwise a first-seen member is accepted
    if gossip.Status = Tombstone then false else true
  | some old =>
    if gossip.Incarnation > old.Incarnation then true
    else if gossip.Incarnation < old.Incarnation then false
    else if statePrecedence gossip.Status > statePrecedence old.Status then true
    else false

/-- `Change.overrides` from `member.go`: higher incarnation wins, on a tie
higher state precedence wins. -/
def Change.overrides (c c2 : Change) : Bool :=
  if c.Incarnation > c2.Incarnation then true
  else if c.Incarnation < c2.Incarnation then false
  else decide (statePrecedence c.Status > statePrecedence c2.Status)

/-- `Change.validateIncoming` from `member.go`: a legacy change arriving
with `Status=Faulty` and the `Tombstone` flag set is rewritten to
`Status=Tombstone`. -/
def Change.validateIncoming (c : Change) : Change :=
  if c.Status = Faulty ∧ c.Tombstone then { c with Status := Swim.Tombstone } else c

/-- `Change.validateOutgoing` from `member.go`: an outgoing change with
`Status=Tombstone` is rewritten to the legacy `Status=Faulty` plus
`Tombstone=true` encoding. -/
def Change.validateOutgoing (c : Change) : Change :=
  if c.Status = Swim.Tombstone then { c with Status := Faulty, Tombstone := true } else c

/-!
Label checksum machinery from `member.go` (second revision).  The
per-label fingerprint is `farm.Fingerprint32` from the external
`github.com/dgryski/go-farm` dependency, which is FarmHash's
`farmhashmk::Hash32`.  It is embedded below over `Nat` with explicit
`% 2^32` reductions.  The claims only exercise the short-input
(≤ 24 byte) paths, which are pinned bit-for-bit by the repository's own
test vectors in `member_test.go` (`/hello/world ↦ 1613250528`,
`/hello/world ⊕ /foo/bar ↦ -1494888142` as `int32`).
-/

/-- Reduce to a 32-bit unsigned value. -/
def u32 (n : Nat) : Nat := n % 4294967296

/-- FarmHash 32-bit magic constant `c1`. -/
def fc1 : Nat := 0xcc9e2d51

/-- FarmHash 32-bit magic constant `c2`. -/
def fc2 : Nat := 0x1b873593

/-- 32-bit rotate right (`Rotate32` in FarmHash); `x` must be `< 2^32`. -/
def rotr32 (x s : Nat) : Nat := u32 ((x >>> s) ||| (x <<< (32 - s)))

/-- Murmur3-style finalization mix (`fmix` in FarmHash). -/
def fmix (h : Nat) : Nat :=
  let h1 := h ^^^ (h >>> 16)
  let h2 := u32 (h1 * 0x85ebca6b)
  let h3 := h2 ^^^ (h2 >>> 13)
  let h4 := u32 (h3 * 0xc2b2ae35)
  h4 ^^^ (h4 >>> 16)

/-- Murmur-style mixing step (`Mur(a, h)` in FarmHash). -/
def mur (a h : Nat) : Nat :=
  let a1 := u32 (a * fc1)
  let a2 := rotr32 a1 17
  let a3 := u32 (a2 * fc2)
  let h1 := h ^^^ a3
  let h2 := rotr32 h1 19
  u32 (h2 * 5 + 0xe6546b64)

/-- Little-endian 32-bit load at byte offset `i` (`Fetch32`); the
algorithm only reads in-bounds offsets, `0` pads out-of-range reads. -/
def fetch32 (bs : List Nat) (i : Nat) : Nat :=
  bs.getD i 0 + 256 * bs.getD (i + 1) 0 + 65536 * bs.getD (i + 2) 0 +
    16777216 * bs.getD (i + 3) 0

/-- `uint32(int8(b))`: sign-extend a byte, as in `Hash32Len0to4`. -/
def signExtend8 (b : Nat) : Nat := if b < 128 then b else 4294967040 + b

/-- `Hash32Len0to4` from farmhashmk. -/
def hash32Len0to4 (bs : List Nat) (seed : Nat) : Nat :=
  let bc := bs.foldl
    (fun (p : Nat × Nat) byte =>
      let b := u32 (p.1 * fc1 + signExtend8 byte)
      (b, p.2 ^^^ b))
    (seed, 9)
  fmix (mur bc.1 (mur (u32 bs.length) bc.2))

/-- `Hash32Len5to12` from farmhashmk. -/
def hash32Len5to12 (bs : List Nat) (seed : Nat) : Nat :=
  let sl := bs.length
  let a0 := u32 sl
  let b0 := u32 (sl * 5)
  let d0 := u32 (b0 + seed)
  let a := u32 (a0 + fetch32 bs 0)
  let b := u32 (b0 + fetch32 bs (sl - 4))
  let c := u32 (9 + fetch32 bs ((sl >>> 1) &&& 4))
  fmix (seed ^^^ mur c (mur b (mur a d0)))

/-- `Hash32Len13to24` from farmhashmk. -/
def hash32Len13to24 (bs : List Nat) (seed : Nat) : Nat :=
  let sl := bs.length
  let a := fetch32 bs ((sl >>> 1) - 4)
  let b := fetch32 bs 4
  let c := fetch32 bs (sl - 8)
  let d := fetch32 bs (sl >>> 1)
  let e := fetch32 bs 0
  let f := fetch32 bs (sl - 4)
  let h0 := u32 (d * fc1 + sl + seed)
  let a1 := u32 (rotr32 a 12 + f)
  let h1 := u32 (mur c h0 + a1)
  let a2 := u32 (rotr32 a1 3 + c)
  let h2 := u32 (mur e h1 + a2)
  let a3 := u32 (rotr32 (u32 (a2 + f)) 12 + d)
  let h3 := u32 (mur (b ^^^ seed) h2 + a3)
  fmix h3

/-- The main loop of farmhashmk `Hash32` for inputs longer than 24
bytes: 20 bytes are consumed per iteration. -/
def hash32Loop : Nat → List Nat → Nat → Nat → Nat → Nat × Nat × Nat
  | 0, _, h, g, f => (h, g, f)
  | Nat.succ n, bs, h, g, f =>
    let a := fetch32 bs 0
    let b := fetch32 bs 4
    let c := fetch32 bs 8
    let d := fetch32 bs 12
    let e := fetch32 bs 16
    let h1 := u32 (h + a)
    let g1 := u32 (g + b)
    let f1 := u32 (f + c)
    let h2 := u32 (mur d h1 + e)
    let g2 := u32 (mur c g1 + a)
    let f2 := u32 (mur (u32 (b + e * fc1)) f1 + d)
    let f3 := u32 (f2 + g2)
    let g3 := u32 (g2 + f3)
    hash32Loop n (bs.drop 20) h2 g3 f3

/-- farmhashmk `Hash32` over a byte sequence (`farm.Fingerprint32`
dispatches here).  The claims in this development only evaluate it on
inputs of at most 24 bytes. -/
def hash32 (bs : List Nat) : Nat :=
  let sl := bs.length
  if sl ≤ 4 then hash32Len0to4 bs 0
  else if sl ≤ 12 then hash32Len5to12 bs 0
  else if sl ≤ 24 then hash32Len13to24 bs 0
  else
    let h0 := u32 sl
    let g0 := u32 (fc1 * sl)
    let a0 := u32 (rotr32 (u32 (fetch32 bs (sl - 4) * fc1)) 17 * fc2)
    let a1 := u32 (rotr32 (u32 (fetch32 bs (sl - 8) * fc1)) 17 * fc2)
    let a2 := u32 (rotr32 (u32 (fetch32 bs (sl - 16) * fc1)) 17 * fc2)
    let a3 := u32 (rotr32 (u32 (fetch32 bs (sl - 12) * fc1)) 17 * fc2)
    let a4 := u32 (rotr32 (u32 (fetch32 bs (sl - 20) * fc1)) 17 * fc2)
    let h1 := u32 (rotr32 (h0 ^^^ a0) 19 * 5 + 0xe6546b64)
    let h2 := u32 (rotr32 (h1 ^^^ a2) 19 * 5 + 0xe6546b64)
    let g1 := u32 (rotr32 (g0 ^^^ a1) 19 * 5 + 0xe6546b64)
    let g2 := u32 (rotr32 (g1 ^^^ a3) 19 * 5 + 0xe6546b64)
    let f1 := u32 (rotr32 (u32 (g0 + a4)) 19 * 5 + 0xe6546b64)
    let hgf := hash32Loop ((sl - 1) / 20) bs h2 g2 f1
    let g3 := u32 (rotr32 hgf.2.1 11 * fc1)
    let g4 := u32 (rotr32 g3 17 * fc1)
    let f2 := u32 (rotr32 hgf.2.2 11 * fc1)
    let f3 := u32 (rotr32 f2 17 * fc1)
    let h3 := u32 (rotr32 (u32 (hgf.1 + g4)) 19 * 5 + 0xe6546b64)
    let h4 := u32 (rotr32 h3 17 * fc1)
    let h5 := u32 (rotr32 (u32 (h4 + f3)) 19 * 5 + 0xe6546b64)
    u32 (rotr32 h5 17 * fc1)

/-- UTF-8 encoding of one character, as byte values. -/
def utf8Bytes (c : Char) : List Nat :=
  let n := c.toNat
  if n < 0x80 then [n]
  else if n < 0x800 then
    [0xC0 ||| (n >>> 6), 0x80 ||| (n &&& 0x3F)]
  else if n < 0x10000 then
    [0xE0 ||| (n >>> 12), 0x80 ||| ((n >>> 6) &&& 0x3F), 0x80 ||| (n &&& 0x3F)]
  else
    [0xF0 ||| (n >>> 18), 0x80 ||| ((n >>> 12) &&& 0x3F),
      0x80 ||| ((n >>> 6) &&& 0x3F), 0x80 ||| (n &&& 0x3F)]

/-- The UTF-8 bytes of a string, as in Go. -/
def strBytes (s : String) : List Nat := (s.data.map utf8Bytes).flatten

/-- `farm.Fingerprint32` of a string: farmhashmk `Hash32` over its
UTF-8 bytes. -/
def fingerprint32 (s : String) : Nat := hash32 (strBytes s)

/-- The unsigned 32-bit XOR fold inside `LabelMap.checksum` from
`member.go`: for each label, the fingerprint of `"/key/value"` is
XOR-folded into the accumulator, in iteration order of the map. -/
def LabelMap.checksumU32 (l : LabelMap) : Nat :=
  l.foldl (fun acc kv => acc ^^^ fingerprint32 ("/" ++ kv.1 ++ "/" ++ kv.2)) 0

/-- Two's-complement reinterpretation of a `uint32` as `int32`: models
the Go line `int32(checksum>>1)<<1 | int32(checksum&uint32(1))` in
`LabelMap.checksum`. -/
def toInt32 (n : Nat) : Int :=
  if n < 2147483648 then (n : Int) else (n : Int) - 4294967296

/-- `LabelMap.checksum` from `member.go`: the signed 32-bit label
checksum. -/
def LabelMap.checksum (l : LabelMap) : Int := toInt32 (LabelMap.checksumU32 l)

/-- `LabelMap.checksumString` from `member.go` (second revision): the
fragment appended for the labels, written as the returned string rather
than a buffer append.  A zero checksum writes nothing, for backwards
compatibility; otherwise `#labels<itoa(checksum)>` is written. -/
def LabelMap.checksumString (l : LabelMap) : String :=
  let checksum := LabelMap.checksum l
  if checksum = 0 then ""
  else "#labels" ++ toString checksum

/-- `Member.checksumString` from `member.go` (second revision): the
member's checksum fragment `%s%s%v` of address, status and incarnation,
followed by the label fragment. -/
def Member.checksumString (m : Member) : String :=
  m.Address ++ m.Status ++ toString m.Incarnation ++ LabelMap.checksumString m.Labels

/-- `Change.isPingable` from `member.go`. -/
def Change.isPingable (c : Change) : Bool :=
  c.Status == Alive || c.Status == Suspect

/-- `Member.isReachable` from `member.go`. -/
def Member.isReachable (m : Member) : Bool :=
  m.Status == Alive || m.Status == Suspect

/-! ## Helper lemmas shared by the claim theorems -/

/-- `statePrecedence` never returns anything below `-1`. -/
lemma statePrecedence_ge_neg_one (s : String) : -1 ≤ statePrecedence s := by
  unfold statePrecedence
  split <;> try norm_num
  split <;> try norm_num
  split <;> try norm_num
  split <;> try norm_num
  split <;> norm_num

/-- `Change.overrides` as a single boolean formula: higher incarnation,
or equal incarnation and strictly higher state precedence. -/
lemma overrides_eq (a b : Change) :
    a.overrides b =
      (decide (a.Incarnation > b.Incarnation) ||
        (decide (a.Incarnation = b.Incarnation) &&
          decide (statePrecedence a.Status > statePrecedence b.Status))) := by
  unfold Change.overrides
  by_cases h1 : a.Incarnation > b.Incarnation
  · simp [h1]
  · by_cases h2 : a.Incarnation < b.Incarnation
    · have h3 : ¬ a.Incarnation = b.Incarnation := by omega
      simp [h1, h2, h3]
    · have h3 : a.Incarnation = b.Incarnation := by omega
      simp [h1, h2, h3]

/-! ## Claim theorems -/

/-- **C1** (corrected): the claim as frozen is false.  `localOverride`
gates on `m.Address == local`, never on `change.Address`: here the local
member receives a `Faulty` change about a *different* address with equal
incarnation, and `localOverride` still returns `true`. -/
theorem C1_localOverride_counterexample :
    Member.localOverride
      { Address := "local address", Status := Alive, Incarnation := 0, Labels := [] }
      "local address"
      { Source := "", SourceIncarnation := 0, Address := "non-local address",
        Incarnation := 0, Status := Faulty, Tombstone := false, Labels := [],
        Timestamp := 0 } = true
    ∧ ("non-local address" : String) ≠ "local address" := by
  decide

/-- **C1** (amended): `localOverride(local, change)` returns true exactly
when the *member's own* address equals `local`, `change.Incarnation` is at
least the member's incarnation, and `change.Status` is Suspect, Faulty or
Tombstone; it is false for any Alive or Leave change, but the address
gate is on the member, not on the change. -/
theorem C1_localOverride_amended (m : Member) (localAddr : String) (change : Change) :
    Member.localOverride m localAddr change = true ↔
      (m.Address = localAddr ∧ m.Incarnation ≤ change.Incarnation ∧
        (change.Status = Suspect ∨ change.Status = Faulty ∨ change.Status = Tombstone)) := by
  unfold Member.localOverride
  by_cases h1 : m.Address = localAddr
  · by_cases h2 : change.Incarnation < m.Incarnation
    · have h3 : ¬ m.Incarnation ≤ change.Incarnation := by omega
      simp [h1, h2, h3]
    · have h3 : m.Incarnation ≤ change.Incarnation := by omega
      simp [h1, h2, h3]
      tauto
  · simp [h1]

/-- **C1** witness: the amended rule applied at a concrete input where
all hypotheses hold. -/
theorem C1_localOverride_amended_witness :
    Member.localOverride
      { Address := "a", Status := Alive, Incarnation := 3, Labels := [] } "a"
      { Source := "", SourceIncarnation := 0, Address := "a", Incarnation := 3,
        Status := Suspect, Tombstone := false, Labels := [], Timestamp := 0 } = true :=
  (C1_localOverride_amended _ _ _).mpr (by decide)

/-- **C2** (confirmed): `acceptGossip` rejects a first-seen Tombstone,
accepts any other first-seen member, accepts strictly newer incarnations,
rejects strictly older ones, and on an incarnation tie accepts exactly
when the incoming status has strictly higher precedence. -/
theorem C2_acceptGossip (gossip old : Member) :
    (gossip.Status = Tombstone → acceptGossip none gossip = false) ∧
    (gossip.Status ≠ Tombstone → acceptGossip none gossip = true) ∧
    (gossip.Incarnation > old.Incarnation → acceptGossip (some old) gossip = true) ∧
    (gossip.Incarnation < old.Incarnation → acceptGossip (some old) gossip = false) ∧
    (gossip.Incarnation = old.Incarnation →
      (acceptGossip (some old) gossip = true ↔
        statePrecedence gossip.Status > statePrecedence old.Status)) := by
  refine ⟨fun h => ?_, fun h => ?_, fun h => ?_, fun h => ?_, fun h => ?_⟩
  · simp [acceptGossip, h]
  · simp [acceptGossip, h]
  · simp [acceptGossip, h]
  · have h1 : ¬ gossip.Incarnation > old.Incarnation := by omega
    simp [acceptGossip, h1, h]
  · have h1 : ¬ gossip.Incarnation > old.Incarnation := by omega
    have h2 : ¬ gossip.Incarnation < old.Incarnation := by omega
    by_cases h3 : statePrecedence gossip.Status > statePrecedence old.Status
    · simp [acceptGossip, h1, h2, h3]
    · simp [acceptGossip, h1, h2, h3]

/-- **C2** witness: the rules applied at concrete inputs — a first-seen
tombstone is rejected, a newer incarnation is accepted. -/
theorem C2_acceptGossip_witness :
    acceptGossip none
      { Address := "a", Status := Tombstone, Incarnation := 2, Labels := [] } = false ∧
    acceptGossip
      (some { Address := "a", Status := Faulty, Incarnation := 1, Labels := [] })
      { Address := "a", Status := Alive, Incarnation := 2, Labels := [] } = true :=
  ⟨(C2_acceptGossip
      { Address := "a", Status := Tombstone, Incarnation := 2, Labels := [] }
      { Address := "a", Status := Faulty, Incarnation := 1, Labels := [] }).1 (by decide),
   (C2_acceptGossip
      { Address := "a", Status := Alive, Incarnation := 2, Labels := [] }
      { Address := "a", Status := Faulty, Incarnation := 1, Labels := [] }).2.2.1 (by decide)⟩

/-- **C3** (confirmed): `overrides` — a strictly higher incarnation wins
in both directions, an equal incarnation compares state precedence, a
strictly lower incarnation never overrides. -/
theorem C3_overrides (a b : Change) :
    (a.Incarnation > b.Incarnation → a.overrides b = true ∧ b.overrides a = false) ∧
    (a.Incarnation = b.Incarnation →
      a.overrides b = decide (statePrecedence a.Status > statePrecedence b.Status)) ∧
    (a.Incarnation < b.Incarnation → a.overrides b = false) := by
  refine ⟨fun h => ⟨?_, ?_⟩, fun h => ?_, fun h => ?_⟩ <;>
    simp [overrides_eq, h] <;> omega

/-- **C3** witness: a change with a higher incarnation overrides and is
not overridden, at a concrete input. -/
theorem C3_overrides_witness :
    Change.overrides
      { Source := "", SourceIncarnation := 0, Address := "a", Incarnation := 2,
        Status := Alive, Tombstone := false, Labels := [], Timestamp := 0 }
      { Source := "", SourceIncarnation := 0, Address := "a", Incarnation := 1,
        Status := Tombstone, Tombstone := false, Labels := [], Timestamp := 0 } = true :=
  ((C3_overrides _ _).1 (by decide)).1

/-- **C4** (corrected): the claim as frozen is false for the
`Status=Tombstone` side of the legacy pairing.  A change already carrying
`Status=Tombstone` with the corresponding flag value `true` does not
round-trip: `validateIncoming` leaves it alone and `validateOutgoing`
rewrites it to the legacy `(Faulty, Tombstone=true)` encoding. -/
theorem C4_roundtrip_counterexample :
    Change.validateOutgoing (Change.validateIncoming
      { Source := "", SourceIncarnation := 0, Address := "a", Incarnation := 1,
        Status := Tombstone, Tombstone := true, Labels := [], Timestamp := 0 }) ≠
      { Source := "", SourceIncarnation := 0, Address := "a", Incarnation := 1,
        Status := Tombstone, Tombstone := true, Labels := [], Timestamp := 0 } ∧
    (Change.validateOutgoing (Change.validateIncoming
      { Source := "", SourceIncarnation := 0, Address := "a", Incarnation := 1,
        Status := Tombstone, Tombstone := true, Labels := [], Timestamp := 0 })).Status
      = Faulty := by
  decide

/-- **C4** (amended): `validateOutgoing(validateIncoming(c)) == c` holds
exactly when `c.Status ≠ Tombstone` — in particular for every legacy-wire
change with `Status=Faulty` and either Tombstone flag value; a change
whose status is already `Tombstone` is instead normalised to the legacy
`(Faulty, true)` encoding and does not round-trip. -/
theorem C4_roundtrip_amended (c : Change) :
    Change.validateOutgoing (Change.validateIncoming c) = c ↔ c.Status ≠ Tombstone := by
  obtain ⟨src, sinc, addr, inc, st, tb, lb, ts⟩ := c
  simp only [Change.validateIncoming, Change.validateOutgoing]
  by_cases h1 : st = Faulty ∧ tb = true
  · obtain ⟨h1s, h1t⟩ := h1
    subst h1s h1t
    simp [Faulty, Tombstone]
  · by_cases h2 : st = Tombstone
    · subst h2
      simp only [Tombstone, Faulty] at h1 ⊢
      simp_all [Change.mk.injEq]
    · have h3 : ¬ (st = Faulty ∧ tb) := by simpa using h1
      simp [h3, h2]

/-- **C4** witness: the amended round-trip at the concrete legacy
tombstone encoding `(Faulty, Tombstone=true)`. -/
theorem C4_roundtrip_amended_witness :
    Change.validateOutgoing (Change.validateIncoming
      { Source := "", SourceIncarnation := 0, Address := "a", Incarnation := 1,
        Status := Faulty, Tombstone := true, Labels := [], Timestamp := 0 }) =
      { Source := "", SourceIncarnation := 0, Address := "a", Incarnation := 1,
        Status := Faulty, Tombstone := true, Labels := [], Timestamp := 0 } :=
  (C4_roundtrip_amended _).mpr (by decide)

/-- The XOR fold over the label fingerprints is invariant under any
permutation of the labels, because XOR is commutative and associative. -/
lemma checksumU32_perm {l₁ l₂ : LabelMap} (p : List.Perm l₁ l₂) :
    LabelMap.checksumU32 l₁ = LabelMap.checksumU32 l₂ := by
  have main : ∀ {m₁ m₂ : LabelMap}, List.Perm m₁ m₂ → ∀ n : Nat,
      m₁.foldl (fun acc kv => acc ^^^ fingerprint32 ("/" ++ kv.1 ++ "/" ++ kv.2)) n =
      m₂.foldl (fun acc kv => acc ^^^ fingerprint32 ("/" ++ kv.1 ++ "/" ++ kv.2)) n := by
    intro m₁ m₂ q
    induction q with
    | nil => intro n; rfl
    | cons x _ ih => intro n; simpa using ih _
    | swap x y l =>
      intro n
      simp only [List.foldl_cons]
      rw [Nat.xor_assoc, Nat.xor_assoc,
        Nat.xor_comm (fingerprint32 ("/" ++ y.1 ++ "/" ++ y.2))
          (fingerprint32 ("/" ++ x.1 ++ "/" ++ x.2))]
    | trans _ _ ih₁ ih₂ => intro n; exact (ih₁ n).trans (ih₂ n)
  exact main p 0

/-- **C5** (confirmed): the label checksum is the XOR fold of the 32-bit
`"/key/value"` fingerprints and is invariant under any reordering of the
label entries; the per-label fingerprint is a 32-bit value. -/
theorem C5_labelChecksum_order_independent (l₁ l₂ : LabelMap) (p : List.Perm l₁ l₂) :
    LabelMap.checksum l₁ = LabelMap.checksum l₂ ∧
    LabelMap.checksum l₁ =
      toInt32 (l₁.foldl (fun acc kv => acc ^^^ fingerprint32 ("/" ++ kv.1 ++ "/" ++ kv.2)) 0) ∧
    (∀ s : String, fingerprint32 s < 4294967296) := by
  refine ⟨?_, rfl, fun s => ?_⟩
  · unfold LabelMap.checksum
    rw [checksumU32_perm p]
  · have hb : ∀ x y : Nat, x < 4294967296 → x ^^^ (x >>> y) < 4294967296 := by
      intro x y hx
      have : x ^^^ (x >>> y) < 2 ^ 32 := by
        apply Nat.xor_lt_two_pow hx
        calc x >>> y = x / 2 ^ y := Nat.shiftRight_eq_div_pow x y
          _ ≤ x := Nat.div_le_self _ _
          _ < 2 ^ 32 := hx
      simpa using this
    have hu : ∀ n : Nat, u32 n < 4294967296 := fun n => Nat.mod_lt _ (by norm_num)
    have hfmix : ∀ h : Nat, fmix h < 4294967296 := by
      intro h
      unfold fmix
      exact hb _ _ (hu _)
    unfold fingerprint32 hash32
    dsimp only
    split
    · unfold hash32Len0to4; exact hfmix _
    · split
      · unfold hash32Len5to12; exact hfmix _
      · split
        · unfold hash32Len13to24; exact hfmix _
        · exact hu _

/-- **C5** witness: the checksum of the two test labels is the same for
both insertion orders. -/
theorem C5_labelChecksum_witness :
    LabelMap.checksum [("foo", "bar"), ("hello", "world")] =
      LabelMap.checksum [("hello", "world"), ("foo", "bar")] :=
  (C5_labelChecksum_order_independent _ _
    (List.Perm.swap ("foo", "bar") ("hello", "world") [])).1

/-- **C6** (confirmed): whenever the label checksum is zero — the empty
label set included — the label fragment is omitted entirely, so the
member checksum string coincides with that of the same member carrying no
labels at all. -/
theorem C6_zero_label_checksum_omitted (addr status : String) (inc : Int) (l : LabelMap)
    (h : LabelMap.checksum l = 0) :
    LabelMap.checksumString l = "" ∧
    Member.checksumString { Address := addr, Status := status, Incarnation := inc, Labels := l } =
      Member.checksumString
        { Address := addr, Status := status, Incarnation := inc, Labels := [] } := by
  have h1 : LabelMap.checksumString l = "" := by
    unfold LabelMap.checksumString
    simp [h]
  have h2 : LabelMap.checksumString [] = "" := by decide
  refine ⟨h1, ?_⟩
  unfold Member.checksumString
  simp [h1, h2]

/-- **C6** witness: a genuinely non-empty label set whose fingerprints
XOR-fold to exactly zero (the two keys collide under the fingerprint), so
its checksum string is byte-identical to the label-free member's. -/
theorem C6_zero_label_checksum_witness :
    LabelMap.checksum [("k12740", "v"), ("k27488", "v")] = 0 ∧
    ([("k12740", "v"), ("k27488", "v")] : LabelMap) ≠ [] ∧
    Member.checksumString
      { Address := "192.168.2.1:1234", Status := Alive, Incarnation := 42,
        Labels := [("k12740", "v"), ("k27488", "v")] } =
      Member.checksumString
        { Address := "192.168.2.1:1234", Status := Alive, Incarnation := 42,
          Labels := [] } :=
  ⟨by decide, by decide,
    (C6_zero_label_checksum_omitted "192.168.2.1:1234" Alive 42
      [("k12740", "v"), ("k27488", "v")] (by decide)).2⟩

/-- **C7** (confirmed): the precedence table is Alive=0, Suspect=1,
Faulty=2, Leave=3, Tombstone=4, every other string maps to -1, so an
unrecognized status ranks strictly below every known status and a change
carrying one never wins an equal-incarnation `overrides` comparison. -/
theorem C7_statePrecedence_table :
    statePrecedence Alive = 0 ∧ statePrecedence Suspect = 1 ∧
    statePrecedence Faulty = 2 ∧ statePrecedence Leave = 3 ∧
    statePrecedence Tombstone = 4 ∧
    (∀ s : String, s ≠ Alive → s ≠ Suspect → s ≠ Faulty → s ≠ Leave → s ≠ Tombstone →
      statePrecedence s = -1) ∧
    (∀ s k : String, s ≠ Alive → s ≠ Suspect → s ≠ Faulty → s ≠ Leave → s ≠ Tombstone →
      (k = Alive ∨ k = Suspect ∨ k = Faulty ∨ k = Leave ∨ k = Tombstone) →
      statePrecedence s < statePrecedence k) ∧
    (∀ a b : Change, a.Incarnation = b.Incarnation →
      a.Status ≠ Alive → a.Status ≠ Suspect → a.Status ≠ Faulty → a.Status ≠ Leave →
      a.Status ≠ Tombstone → a.overrides b = false) := by
  have hdef : ∀ s : String, s ≠ Alive → s ≠ Suspect → s ≠ Faulty → s ≠ Leave →
      s ≠ Tombstone → statePrecedence s = -1 := by
    intro s h1 h2 h3 h4 h5
    unfold statePrecedence
    simp [h1, h2, h3, h4, h5]
  refine ⟨by decide, by decide, by decide, by decide, by decide, hdef, ?_, ?_⟩
  · intro s k h1 h2 h3 h4 h5 hk
    rw [hdef s h1 h2 h3 h4 h5]
    rcases hk with h | h | h | h | h <;> subst h <;> decide
  · intro a b hinc h1 h2 h3 h4 h5
    have ha := hdef a.Status h1 h2 h3 h4 h5
    have hbnd := statePrecedence_ge_neg_one b.Status
    simp [overrides_eq, hinc, ha]
    omega

/-- **C7** witness: the table facts applied at the concrete unrecognized
status `"zombie"`. -/
theorem C7_statePrecedence_witness :
    statePrecedence "zombie" = -1 ∧
    statePrecedence "zombie" < statePrecedence Alive ∧
    Change.overrides
      { Source := "", SourceIncarnation := 0, Address := "a", Incarnation := 7,
        Status := "zombie", Tombstone := false, Labels := [], Timestamp := 0 }
      { Source := "", SourceIncarnation := 0, Address := "a", Incarnation := 7,
        Status := Alive, Tombstone := false, Labels := [], Timestamp := 0 } = false :=
  ⟨C7_statePrecedence_table.2.2.2.2.2.1 "zombie"
      (by decide) (by decide) (by decide) (by decide) (by decide),
   C7_statePrecedence_table.2.2.2.2.2.2.1 "zombie" Alive
      (by decide) (by decide) (by decide) (by decide) (by decide) (Or.inl rfl),
   C7_statePrecedence_table.2.2.2.2.2.2.2 _ _ rfl
      (by decide) (by decide) (by decide) (by decide) (by decide)⟩

/-- **C8** (confirmed): the concrete member produces exactly the
fragment `"192.168.2.1:1234alive42"`; adding the label `hello=world`
appends a fixed non-zero label-checksum suffix; adding `foo=bar` as well
changes the suffix to a different fixed value that is the same for both
insertion orders of the two labels. -/
theorem C8_checksumString_concrete :
    Member.checksumString
      { Address := "192.168.2.1:1234", Status := Alive, Incarnation := 42, Labels := [] } =
      "192.168.2.1:1234alive42" ∧
    Member.checksumString
      { Address := "192.168.2.1:1234", Status := Alive, Incarnation := 42,
        Labels := [("hello", "world")] } =
      "192.168.2.1:1234alive42#labels1613250528" ∧
    LabelMap.checksum [("hello", "world")] ≠ 0 ∧
    Member.checksumString
      { Address := "192.168.2.1:1234", Status := Alive, Incarnation := 42,
        Labels := [("hello", "world"), ("foo", "bar")] } =
      "192.168.2.1:1234alive42#labels-1494888142" ∧
    Member.checksumString
      { Address := "192.168.2.1:1234", Status := Alive, Incarnation := 42,
        Labels := [("foo", "bar"), ("hello", "world")] } =
      "192.168.2.1:1234alive42#labels-1494888142" ∧
    LabelMap.checksum [("hello", "world"), ("foo", "bar")] ≠
      LabelMap.checksum [("hello", "world")] := by
  decide

/-- **C9** (confirmed): `nonLocalOverride` is false for a change about a
different address; for the member's own address it accepts a strictly
higher incarnation, rejects a strictly lower one, and on a tie compares
state precedence. -/
theorem C9_nonLocalOverride (m : Member) (change : Change) :
    (change.Address ≠ m.Address → m.nonLocalOverride change = false) ∧
    (change.Address = m.Address →
      (change.Incarnation > m.Incarnation → m.nonLocalOverride change = true) ∧
      (change.Incarnation < m.Incarnation → m.nonLocalOverride change = false) ∧
      (change.Incarnation = m.Incarnation →
        m.nonLocalOverride change =
          decide (statePrecedence change.Status > statePrecedence m.Status))) := by
  refine ⟨fun h => ?_, fun h => ⟨fun h2 => ?_, fun h2 => ?_, fun h2 => ?_⟩⟩
  · simp [Member.nonLocalOverride, h]
  · simp [Member.nonLocalOverride, h, h2]
  · have h3 : ¬ change.Incarnation > m.Incarnation := by omega
    simp [Member.nonLocalOverride, h, h2, h3]
  · have h3 : ¬ change.Incarnation > m.Incarnation := by omega
    have h4 : ¬ change.Incarnation < m.Incarnation := by omega
    simp [Member.nonLocalOverride, h, h2, h3, h4]

/-- **C9** witness: the rule applied at concrete inputs — a change about
a different address is ignored, a newer change about the same address
overrides. -/
theorem C9_nonLocalOverride_witness :
    Member.nonLocalOverride
      { Address := "a", Status := Alive, Incarnation := 1, Labels := [] }
      { Source := "", SourceIncarnation := 0, Address := "b", Incarnation := 9,
        Status := Faulty, Tombstone := false, Labels := [], Timestamp := 0 } = false ∧
    Member.nonLocalOverride
      { Address := "a", Status := Alive, Incarnation := 1, Labels := [] }
      { Source := "", SourceIncarnation := 0, Address := "a", Incarnation := 2,
        Status := Faulty, Tombstone := false, Labels := [], Timestamp := 0 } = true :=
  ⟨(C9_nonLocalOverride _ _).1 (by decide),
   ((C9_nonLocalOverride _ _).2 (by decide)).1 (by decide)⟩

/-- **C10** (confirmed): `overrides` is asymmetric, irreflexive and
transitive — a strict partial order; in particular, with equal
incarnation and equal state precedence neither change overrides the
other. -/
theorem C10_overrides_strict_order (a b c : Change) :
    ¬(a.overrides b = true ∧ b.overrides a = true) ∧
    a.overrides a = false ∧
    (a.Incarnation = b.Incarnation →
      statePrecedence a.Status = statePrecedence b.Status →
      a.overrides b = false ∧ b.overrides a = false) ∧
    (a.overrides b = true → b.overrides c = true → a.overrides c = true) := by
  refine ⟨?_, ?_, fun h1 h2 => ⟨?_, ?_⟩, fun h1 h2 => ?_⟩ <;>
    simp_all only [overrides_eq, Bool.or_eq_true, Bool.and_eq_true, decide_eq_true_eq,
      Bool.or_eq_false_iff, Bool.and_eq_false_iff, decide_eq_false_iff_not, not_and] <;>
    omega

/-- **C10** witness: transitivity applied at concrete inputs. -/
theorem C10_overrides_witness :
    Change.overrides
      { Source := "", SourceIncarnation := 0, Address := "a", Incarnation := 3,
        Status := Alive, Tombstone := false, Labels := [], Timestamp := 0 }
      { Source := "", SourceIncarnation := 0, Address := "a", Incarnation := 1,
        Status := Alive, Tombstone := false, Labels := [], Timestamp := 0 } = true :=
  (C10_overrides_strict_order
      { Source := "", SourceIncarnation := 0, Address := "a", Incarnation := 3,
        Status := Alive, Tombstone := false, Labels := [], Timestamp := 0 }
      { Source := "", SourceIncarnation := 0, Address := "a", Incarnation := 2,
        Status := Alive, Tombstone := false, Labels := [], Timestamp := 0 }
      { Source := "", SourceIncarnation := 0, Address := "a", Incarnation := 1,
        Status := Alive, Tombstone := false, Labels := [], Timestamp := 0 }).2.2.2
    (by decide) (by decide)

end Swim
